import Mathlib

/-!
Verification of the WebAuthn challenge-session store, the ceremony handlers
and the recovery-code service of the go-webapp-template repository.

The Go source is shallowly embedded: the in-memory session store
(internal/services/webauthn/webauthn.go) becomes a function map with explicit
time passing, the repository tables (internal/repository) become lists, the
HTTP handlers (internal/handlers/auth.go) become pure state transformers whose
external collaborators (protocol library, session manager, database failures)
are supplied as explicit oracle arguments, and the recovery-code service
(internal/services/recovery) becomes functions on character lists with the
random bytes passed in.
-/

/-! ## Time and the session store (internal/services/webauthn/webauthn.go) -/

/-- One minute in nanoseconds, the unit of Go `time.Duration`. -/
def timeMinute : Int := 60 * 1000000000

/-- The fixed TTL of a stored ceremony session: `sessionTTL = 2 * time.Minute`
(webauthn.go line 16). -/
def sessionTTL : Int := 2 * timeMinute

/-- A stored entry: session data plus its absolute expiry
(`sessionEntry` in webauthn.go). -/
structure SessionEntry (α : Type) where
  data : α
  expiresAt : Int
deriving Repr, DecidableEq

/-- The session map of `sessionStore`, one Go map from string keys to entries,
modelled as a function map. -/
def SessionStoreMap (α : Type) : Type := String → Option (SessionEntry α)

/-- Result of `sessionStore.get`: the two error strings of the source
("session not found", "session expired") or the data. -/
inductive GetResult (α : Type) where
  | notFound
  | expired
  | found (d : α)
deriving Repr, DecidableEq

/-- Embedding of `sessionStore.store` (webauthn.go lines 105-112): the entry
for `key` is unconditionally replaced with expiry `now + sessionTTL`. -/
def SessionStoreMap.store (s : SessionStoreMap α) (key : String) (d : α)
    (now : Int) : SessionStoreMap α :=
  fun k => if k = key then some ⟨d, now + sessionTTL⟩ else s k

/-- Embedding of `sessionStore.get` (webauthn.go lines 114-130): look up `key`;
if absent report not-found; otherwise delete the entry unconditionally and then
report expired when `now` is strictly after the expiry, else return the data. -/
def SessionStoreMap.get (s : SessionStoreMap α) (key : String) (now : Int) :
    GetResult α × SessionStoreMap α :=
  match s key with
  | none => (.notFound, s)
  | some entry =>
    let s' : SessionStoreMap α := fun k => if k = key then none else s k
    if entry.expiresAt < now then (.expired, s') else (.found entry.data, s')

/-- Embedding of the background sweep `sessionStore.cleanup` body
(webauthn.go lines 136-145): every entry strictly past its expiry is removed. -/
def SessionStoreMap.cleanup (s : SessionStoreMap α) (now : Int) :
    SessionStoreMap α :=
  fun k =>
    match s k with
    | none => none
    | some entry => if entry.expiresAt < now then none else some entry

/-- Key of the registration namespace, `fmt.Sprintf("registration:%d", userID)`
(webauthn.go lines 78-80). -/
def registrationKey (userID : Int) : String :=
  "registration:" ++ toString userID

/-- Key of the login namespace, `fmt.Sprintf("login:%d", userID)`
(webauthn.go lines 82-84). -/
def loginKey (userID : Int) : String :=
  "login:" ++ toString userID

/-- Key of the discoverable-login namespace, `"discoverable:" + sessionID`
(webauthn.go lines 69-76). -/
def discoverableKey (sessionID : String) : String :=
  "discoverable:" ++ sessionID

/-- `Service.StoreRegistrationSession` (webauthn.go lines 49-51). -/
def StoreRegistrationSession (s : SessionStoreMap α) (userID : Int) (d : α)
    (now : Int) : SessionStoreMap α :=
  s.store (registrationKey userID) d now

/-- `Service.GetRegistrationSession` (webauthn.go lines 54-56). -/
def GetRegistrationSession (s : SessionStoreMap α) (userID : Int) (now : Int) :
    GetResult α × SessionStoreMap α :=
  s.get (registrationKey userID) now

/-- `Service.StoreLoginSession` (webauthn.go lines 59-61). -/
def StoreLoginSession (s : SessionStoreMap α) (userID : Int) (d : α)
    (now : Int) : SessionStoreMap α :=
  s.store (loginKey userID) d now

/-- `Service.GetLoginSession` (webauthn.go lines 64-66). -/
def GetLoginSession (s : SessionStoreMap α) (userID : Int) (now : Int) :
    GetResult α × SessionStoreMap α :=
  s.get (loginKey userID) now

/-- `Service.StoreDiscoverableSession` (webauthn.go lines 69-71). -/
def StoreDiscoverableSession (s : SessionStoreMap α) (sessionID : String)
    (d : α) (now : Int) : SessionStoreMap α :=
  s.store (discoverableKey sessionID) d now

/-- `Service.GetDiscoverableSession` (webauthn.go lines 74-76). -/
def GetDiscoverableSession (s : SessionStoreMap α) (sessionID : String)
    (now : Int) : GetResult α × SessionStoreMap α :=
  s.get (discoverableKey sessionID) now

/-! ## Claims C1 and C2: single-use reads and read-path expiry -/

/-- C1: for every key and every store state, two consecutive `takeAndRemove`
calls with no intervening store return a usable state at most once: whatever
the first `get` returns, the second always reports not-found, because every
lookup deletes the entry whether or not it succeeds. -/
theorem claim_C1_second_get_not_found {α : Type} (s : SessionStoreMap α)
    (k : String) (t1 t2 : Int) :
    (((s.get k t1).2).get k t2).1 = GetResult.notFound := by
  have hk : ((s.get k t1).2) k = none := by
    unfold SessionStoreMap.get
    cases h : s k with
    | none => simp [h]
    | some entry =>
      simp only [h]
      split <;> simp
  generalize (s.get k t1).2 = s1 at hk ⊢
  unfold SessionStoreMap.get
  simp [hk]

/-- C2: an entry stored at time `t` and read strictly after `t + sessionTTL`
is reported expired when the sweep has not run, and expired or not-found after
a sweep at any time; in no case is the stored state returned. -/
theorem claim_C2_read_after_ttl_never_returns_state {α : Type}
    (s : SessionStoreMap α) (k : String) (d : α) (t tr : Int)
    (h : t + sessionTTL < tr) :
    ((s.store k d t).get k tr).1 = GetResult.expired ∧
    (∀ ts : Int,
      (((s.store k d t).cleanup ts).get k tr).1 = GetResult.expired ∨
      (((s.store k d t).cleanup ts).get k tr).1 = GetResult.notFound) := by
  constructor
  · simp [SessionStoreMap.get, SessionStoreMap.store, h]
  · intro ts
    by_cases hts : t + sessionTTL < ts
    · right
      simp [SessionStoreMap.get, SessionStoreMap.cleanup, SessionStoreMap.store, hts]
    · left
      simp [SessionStoreMap.get, SessionStoreMap.cleanup, SessionStoreMap.store, hts, h]

/-- The empty session map, the state of a fresh `sessionStore`. -/
def emptySessions {α : Type} : SessionStoreMap α := fun _ => none

/-- Witness for C2 at a concrete input: store at time 0, read one nanosecond
past the TTL. -/
theorem claim_C2_witness :
    ((SessionStoreMap.store (emptySessions (α := Nat)) "k" 7 0).get "k"
        (sessionTTL + 1)).1 = GetResult.expired ∧
    (∀ ts : Int,
      (((SessionStoreMap.store (emptySessions (α := Nat)) "k" 7 0).cleanup
          ts).get "k" (sessionTTL + 1)).1 = GetResult.expired ∨
      (((SessionStoreMap.store (emptySessions (α := Nat)) "k" 7 0).cleanup
          ts).get "k" (sessionTTL + 1)).1 = GetResult.notFound) :=
  claim_C2_read_after_ttl_never_returns_state emptySessions "k" 7 0
    (sessionTTL + 1) (by simp [sessionTTL, timeMinute])

/-! ## Claim C5: the three key namespaces are pairwise disjoint -/

/-- The registration and login namespaces never collide for the same user. -/
theorem registrationKey_ne_loginKey (u : Int) :
    registrationKey u ≠ loginKey u := by
  intro h
  have h2 := congrArg String.data h
  simp only [registrationKey, loginKey, String.data_append] at h2
  exact absurd h2 (by simp)

/-- The registration namespace never collides with the discoverable one. -/
theorem registrationKey_ne_discoverableKey (u : Int) (sid : String) :
    registrationKey u ≠ discoverableKey sid := by
  intro h
  have h2 := congrArg String.data h
  simp only [registrationKey, discoverableKey, String.data_append] at h2
  exact absurd h2 (by simp)

/-- The login namespace never collides with the discoverable one. -/
theorem loginKey_ne_discoverableKey (u : Int) (sid : String) :
    loginKey u ≠ discoverableKey sid := by
  intro h
  have h2 := congrArg String.data h
  simp only [loginKey, discoverableKey, String.data_append] at h2
  exact absurd h2 (by simp)

/-- C5: the keys built for registration state, login state and
discoverable-login state are pairwise distinct for every user id and session
id, and after one write per namespace, three reads (one per namespace, each
within the TTL) return the three independently written payloads. -/
theorem claim_C5_namespaces_isolated {α : Type} (s0 : SessionStoreMap α)
    (u : Int) (sid : String) (d1 d2 d3 : α) (ta tb tc tr1 tr2 tr3 : Int)
    (h1 : tr1 ≤ ta + sessionTTL) (h2 : tr2 ≤ tb + sessionTTL)
    (h3 : tr3 ≤ tc + sessionTTL) :
    registrationKey u ≠ loginKey u ∧
    registrationKey u ≠ discoverableKey sid ∧
    loginKey u ≠ discoverableKey sid ∧
    ((GetRegistrationSession
        (StoreDiscoverableSession
          (StoreLoginSession (StoreRegistrationSession s0 u d1 ta) u d2 tb)
          sid d3 tc) u tr1).1 = GetResult.found d1 ∧
      (GetLoginSession
        (GetRegistrationSession
          (StoreDiscoverableSession
            (StoreLoginSession (StoreRegistrationSession s0 u d1 ta) u d2 tb)
            sid d3 tc) u tr1).2 u tr2).1 = GetResult.found d2 ∧
      (GetDiscoverableSession
        (GetLoginSession
          (GetRegistrationSession
            (StoreDiscoverableSession
              (StoreLoginSession (StoreRegistrationSession s0 u d1 ta) u d2 tb)
              sid d3 tc) u tr1).2 u tr2).2 sid tr3).1 = GetResult.found d3) := by
  refine ⟨registrationKey_ne_loginKey u, registrationKey_ne_discoverableKey u sid,
    loginKey_ne_discoverableKey u sid, ?_, ?_, ?_⟩ <;>
  · simp only [GetRegistrationSession, GetLoginSession, GetDiscoverableSession,
      StoreRegistrationSession, StoreLoginSession, StoreDiscoverableSession,
      SessionStoreMap.get, SessionStoreMap.store,
      registrationKey_ne_loginKey u, registrationKey_ne_discoverableKey u sid,
      loginKey_ne_discoverableKey u sid, if_neg, if_pos,
      not_lt.mpr h1, not_lt.mpr h2, not_lt.mpr h3]
    simp [registrationKey_ne_loginKey u, registrationKey_ne_discoverableKey u sid,
      loginKey_ne_discoverableKey u sid,
      (registrationKey_ne_loginKey u).symm,
      (registrationKey_ne_discoverableKey u sid).symm,
      (loginKey_ne_discoverableKey u sid).symm,
      not_lt.mpr h1, not_lt.mpr h2, not_lt.mpr h3]

/-- Witness for C5 at concrete inputs. -/
theorem claim_C5_witness :
    registrationKey 7 ≠ loginKey 7 ∧
    registrationKey 7 ≠ discoverableKey "s1" ∧
    loginKey 7 ≠ discoverableKey "s1" ∧
    ((GetRegistrationSession
        (StoreDiscoverableSession
          (StoreLoginSession
            (StoreRegistrationSession (emptySessions (α := Nat)) 7 1 0) 7 2 0)
          "s1" 3 0) 7 5).1 = GetResult.found 1 ∧
      (GetLoginSession
        (GetRegistrationSession
          (StoreDiscoverableSession
            (StoreLoginSession
              (StoreRegistrationSession (emptySessions (α := Nat)) 7 1 0) 7 2 0)
            "s1" 3 0) 7 5).2 7 5).1 = GetResult.found 2 ∧
      (GetDiscoverableSession
        (GetLoginSession
          (GetRegistrationSession
            (StoreDiscoverableSession
              (StoreLoginSession
                (StoreRegistrationSession (emptySessions (α := Nat)) 7 1 0) 7 2 0)
              "s1" 3 0) 7 5).2 7 5).2 "s1" 5).1 = GetResult.found 3) :=
  claim_C5_namespaces_isolated emptySessions 7 "s1" 1 2 3 0 0 0 5 5 5
    (by simp [sessionTTL, timeMinute]) (by simp [sessionTTL, timeMinute])
    (by simp [sessionTTL, timeMinute])

/-! ## Claim C3: the WebAuthn user handle
(internal/models/user.go and the callback in internal/handlers/auth.go) -/

/-- Conversion `uint64(u.ID)` of a two's-complement int64 to uint64. -/
def int64ToUint64 (i : Int) : Nat := (i % (2 ^ 64)).toNat

/-- Embedding of `User.WebAuthnID` (models/user.go lines 51-55):
`binary.BigEndian.PutUint64` of the user id into an 8-byte buffer. -/
def WebAuthnID (id : Int) : List Nat :=
  let v := int64ToUint64 id
  [v / 2 ^ 56 % 256, v / 2 ^ 48 % 256, v / 2 ^ 40 % 256, v / 2 ^ 32 % 256,
    v / 2 ^ 24 % 256, v / 2 ^ 16 % 256, v / 2 ^ 8 % 256, v % 256]

/-- Embedding of `binary.BigEndian.Uint64`: the big-endian value of the first
8 bytes of the slice (the Go function reads exactly `b[0]` through `b[7]`). -/
def beUint64 (b : List Nat) : Nat :=
  (b.take 8).foldl (fun acc x => acc * 256 + x) 0

/-- Conversion `int64(v)` of a uint64 back to a two's-complement int64. -/
def uint64ToInt64 (v : Nat) : Int :=
  if v < 2 ^ 63 then (v : Int) else (v : Int) - 2 ^ 64

/-- Embedding of the user-handle validation and decoding in the
`FinishDiscoverableLogin` callback (handlers/auth.go lines 307-314): a handle
shorter than 8 bytes is rejected; otherwise
`int64(binary.BigEndian.Uint64(userHandle))` is decoded. -/
def decodeUserHandle (userHandle : List Nat) : Option Int :=
  if userHandle.length < 8 then none
  else some (uint64ToInt64 (beUint64 userHandle))

/-- Unfolding the big-endian fold over the eight bytes of `WebAuthnID`
recovers the uint64 value. -/
theorem beUint64_WebAuthnID (id : Int) :
    beUint64 (WebAuthnID id) = int64ToUint64 id := by
  have hv : int64ToUint64 id < 2 ^ 64 := by
    unfold int64ToUint64
    have h1 := Int.emod_nonneg id (by norm_num : ((2 : Int) ^ 64) ≠ 0)
    have h2 := Int.emod_lt_of_pos id (by norm_num : (0 : Int) < 2 ^ 64)
    omega
  unfold beUint64 WebAuthnID
  simp only [List.take, List.foldl]
  generalize int64ToUint64 id = v at hv ⊢
  have e1 : (2 : Nat) ^ 56 = 72057594037927936 := by norm_num
  have e2 : (2 : Nat) ^ 48 = 281474976710656 := by norm_num
  have e3 : (2 : Nat) ^ 40 = 1099511627776 := by norm_num
  have e4 : (2 : Nat) ^ 32 = 4294967296 := by norm_num
  have e5 : (2 : Nat) ^ 24 = 16777216 := by norm_num
  have e6 : (2 : Nat) ^ 16 = 65536 := by norm_num
  have e7 : (2 : Nat) ^ 8 = 256 := by norm_num
  have e8 : (2 : Nat) ^ 64 = 18446744073709551616 := by norm_num
  rw [e1, e2, e3, e4, e5, e6, e7] at *
  rw [e8] at hv
  omega

/-- Decoding inverts the int64-to-uint64 conversion on the int64 range. -/
theorem uint64ToInt64_int64ToUint64 (id : Int) (h1 : -(2 ^ 63) ≤ id)
    (h2 : id < 2 ^ 63) : uint64ToInt64 (int64ToUint64 id) = id := by
  unfold uint64ToInt64 int64ToUint64
  have e63 : (2 : Int) ^ 63 = 9223372036854775808 := by norm_num
  have e64 : (2 : Int) ^ 64 = 18446744073709551616 := by norm_num
  have n63 : (2 : Nat) ^ 63 = 9223372036854775808 := by norm_num
  have hm1 := Int.emod_nonneg id (by norm_num : ((2 : Int) ^ 64) ≠ 0)
  have hm2 := Int.emod_lt_of_pos id (by norm_num : (0 : Int) < 2 ^ 64)
  rw [e63, e64] at *
  rw [n63]
  split <;> omega

/-- C3 (amended): the discoverable-login callback decodes the user handle as
the 8-byte big-endian encoding produced by `User.WebAuthnID` (the round trip
holds for every int64 user id), and it rejects any handle shorter than 8
bytes; a handle longer than 8 bytes, however, is not rejected but decoded
from its first 8 bytes. -/
theorem claim_C3_user_handle_decoding (id : Int) (h1 : -(2 ^ 63) ≤ id)
    (h2 : id < 2 ^ 63) :
    decodeUserHandle (WebAuthnID id) = some id ∧
    (WebAuthnID id).length = 8 ∧
    (∀ bs : List Nat, bs.length < 8 → decodeUserHandle bs = none) ∧
    (∀ bs : List Nat, 8 ≤ bs.length →
      decodeUserHandle bs = decodeUserHandle (bs.take 8)) := by
  refine ⟨?_, by simp [WebAuthnID], ?_, ?_⟩
  · unfold decodeUserHandle
    rw [if_neg (by simp [WebAuthnID])]
    rw [beUint64_WebAuthnID, uint64ToInt64_int64ToUint64 id h1 h2]
  · intro bs hbs
    unfold decodeUserHandle
    rw [if_pos hbs]
  · intro bs hbs
    unfold decodeUserHandle beUint64
    have hlen : (bs.take 8).length = 8 := by
      simp [List.length_take]
      omega
    rw [if_neg (by omega), if_neg (by omega), List.take_take]
    simp

/-- Witness for C3 at the concrete user id 42. -/
theorem claim_C3_witness :
    decodeUserHandle (WebAuthnID 42) = some 42 ∧
    (WebAuthnID 42).length = 8 ∧
    (∀ bs : List Nat, bs.length < 8 → decodeUserHandle bs = none) ∧
    (∀ bs : List Nat, 8 ≤ bs.length →
      decodeUserHandle bs = decodeUserHandle (bs.take 8)) :=
  claim_C3_user_handle_decoding 42 (by norm_num) (by norm_num)

/-- Counterexample to C3 as stated: a 9-byte user handle is not rejected as an
unknown-user-handle failure; the callback decodes its first 8 bytes and
resolves user id 42. -/
theorem claim_C3_counterexample :
    decodeUserHandle [0, 0, 0, 0, 0, 0, 0, 42, 99] = some 42 ∧
    [0, 0, 0, 0, 0, 0, 0, 42, 99].length ≠ 8 := by
  constructor
  · rfl
  · decide

/-! ## The recovery-code service (internal/services/recovery) -/

/-- The recovery-code alphabet: lowercase and digits excluding the confusable
characters (recovery.go `alphabet`). -/
def alphabet : List Char := "23456789abcdefghjkmnpqrstuvwxyz".data

/-- Length of each recovery code without dashes (recovery.go `CodeLength`). -/
def CodeLength : Nat := 12

/-- Default number of recovery codes (recovery.go `CodeCount`). -/
def CodeCount : Nat := 8

/-- Embedding of `generateCode`: each random byte is mapped to
`alphabet[int(b) % len(alphabet)]`; the random bytes read from `crypto/rand`
are passed in explicitly. -/
def generateCode (randomBytes : List Nat) : List Char :=
  randomBytes.map (fun b => alphabet.getD (b % alphabet.length) ' ')

/-- The 4-character grouping loop of `formatCode`: parts `code[i:min(i+4,len)]`
for `i = 0, 4, 8, ...`. -/
def chunk4 : List Char → List (List Char)
  | [] => []
  | [a] => [[a]]
  | [a, b] => [[a, b]]
  | [a, b, c] => [[a, b, c]]
  | a :: b :: c :: d :: rest => [a, b, c, d] :: chunk4 rest

/-- Embedding of `formatCode`: the 4-character groups joined with `"-"`. -/
def formatCode (code : List Char) : List Char :=
  List.intercalate ['-'] (chunk4 code)

/-- Embedding of `NormalizeCode` (recovery.go lines 276-279): remove all
dashes, then lowercase. -/
def NormalizeCode (code : List Char) : List Char :=
  (code.filter (fun c => c ≠ '-')).map Char.toLower

/-- Embedding of `Service.GenerateCodes` (recovery.go lines 249-273) for a
given batch of random byte strings: the displayed plaintexts are the formatted
codes and the stored hashes are the hashes of the unformatted codes; the
bcrypt hash function is passed in as `hashFn`. -/
def GenerateCodes (hashFn : List Char → String) (randoms : List (List Nat)) :
    List (List Char) × List String :=
  (randoms.map (fun r => formatCode (generateCode r)),
    randoms.map (fun r => hashFn (generateCode r)))

/-- Flattening the 4-character groups recovers the code. -/
theorem chunk4_flatten (l : List Char) : (chunk4 l).flatten = l := by
  induction l using chunk4.induct <;> simp [chunk4, *]

/-- Every alphabet character is neither a dash nor changed by lowercasing. -/
theorem alphabet_dash_lower : ∀ ch ∈ alphabet, ch ≠ '-' ∧ ch.toLower = ch := by
  decide

/-- Every character produced by `generateCode` is an alphabet character. -/
theorem generateCode_mem_alphabet (randomBytes : List Nat) :
    ∀ ch ∈ generateCode randomBytes, ch ∈ alphabet := by
  intro ch hch
  obtain ⟨b, _, rfl⟩ := List.mem_map.mp hch
  have hlen : alphabet.length = 31 := by decide
  have hb : b % alphabet.length < alphabet.length := by
    rw [hlen]; exact Nat.mod_lt _ (by norm_num)
  rw [List.getD_eq_getElem?_getD, List.getElem?_eq_getElem hb]
  exact List.getElem_mem hb

/-- Removing dashes from groups joined with a dash recovers the flattened
groups, provided no group contains a dash. -/
theorem filter_ne_dash_intercalate (L : List (List Char))
    (h : ∀ part ∈ L, ∀ ch ∈ part, ch ≠ '-') :
    (List.intercalate ['-'] L).filter (fun c => c ≠ '-') = L.flatten := by
  induction L with
  | nil => rfl
  | cons a t ih =>
    cases t with
    | nil =>
      simp only [List.intercalate, List.intersperse, List.flatten,
        List.append_nil]
      exact List.filter_eq_self.mpr (fun ch hch => by
        simpa using h a (by simp) ch hch)
    | cons b t2 =>
      have step : List.intercalate ['-'] (a :: b :: t2) =
          a ++ '-' :: List.intercalate ['-'] (b :: t2) := by
        simp [List.intercalate, List.intersperse]
      rw [step, List.filter_append]
      have hfc : List.filter (fun c => decide (c ≠ '-'))
          ('-' :: List.intercalate ['-'] (b :: t2)) =
          List.filter (fun c => decide (c ≠ '-'))
            (List.intercalate ['-'] (b :: t2)) := by
        simp
      rw [hfc]
      rw [List.filter_eq_self.mpr (fun ch hch => by
        simpa using h a (by simp) ch hch)]
      rw [ih (fun part hp ch hch => h part (by simp [hp]) ch hch)]
      simp

/-- Mapping a function that fixes every member of a list is the identity. -/
theorem map_eq_self_of_mem {α : Type} (f : α → α) (l : List α)
    (h : ∀ x ∈ l, f x = x) : l.map f = l := by
  induction l with
  | nil => rfl
  | cons a t ih =>
    simp only [List.map_cons, h a (by simp),
      ih (fun x hx => h x (by simp [hx])), List.cons.injEq, and_self]

/-- Normalization undoes the display formatting on any code drawn from the
recovery alphabet. -/
theorem NormalizeCode_formatCode (c : List Char)
    (h : ∀ ch ∈ c, ch ∈ alphabet) : NormalizeCode (formatCode c) = c := by
  unfold NormalizeCode formatCode
  rw [filter_ne_dash_intercalate _ (fun part hp ch hch => by
    have hc : ch ∈ c := by
      rw [← chunk4_flatten c]
      exact List.mem_flatten.mpr ⟨part, hp, hch⟩
    exact (alphabet_dash_lower ch (h ch hc)).1)]
  rw [chunk4_flatten]
  exact map_eq_self_of_mem _ _ (fun ch hch =>
    (alphabet_dash_lower ch (h ch hch)).2)

/-- C7: normalization is hyphen- and case-insensitive, and for every generated
(plaintext, hash) pair, the normalized plaintext validates against its paired
hash whenever the hash-comparison primitive accepts a password against its own
hash (the bcrypt contract). -/
theorem claim_C7_normalize_roundtrip (hashFn : List Char → String)
    (compare : String → List Char → Bool)
    (hcomp : ∀ p, compare (hashFn p) p = true) (randoms : List (List Nat)) :
    NormalizeCode "A1B2-C3D4-E5F6".data = NormalizeCode "a1b2c3d4e5f6".data ∧
    ∀ pl hs,
      (pl, hs) ∈ (GenerateCodes hashFn randoms).1.zip
        (GenerateCodes hashFn randoms).2 →
      compare hs (NormalizeCode pl) = true := by
  refine ⟨by decide, ?_⟩
  intro pl hs hmem
  unfold GenerateCodes at hmem
  rw [List.zip_map'] at hmem
  obtain ⟨r, _, heq⟩ := List.mem_map.mp hmem
  have h1 : formatCode (generateCode r) = pl := congrArg Prod.fst heq
  have h2 : hashFn (generateCode r) = hs := congrArg Prod.snd heq
  rw [← h1, ← h2,
    NormalizeCode_formatCode _ (generateCode_mem_alphabet r)]
  exact hcomp _

/-- Witness for C7: the identity-style hash scheme on a concrete batch. -/
theorem claim_C7_witness :
    NormalizeCode "A1B2-C3D4-E5F6".data = NormalizeCode "a1b2c3d4e5f6".data ∧
    ∀ pl hs,
      (pl, hs) ∈ (GenerateCodes (fun p => String.mk p)
          [[0, 1, 2, 3, 4, 5, 6, 7, 8, 9, 10, 11]]).1.zip
        (GenerateCodes (fun p => String.mk p)
          [[0, 1, 2, 3, 4, 5, 6, 7, 8, 9, 10, 11]]).2 →
      (fun hs p => hs = String.mk p : String → List Char → Bool) hs
        (NormalizeCode pl) = true :=
  claim_C7_normalize_roundtrip (fun p => String.mk p)
    (fun hs p => hs = String.mk p) (fun p => by simp)
    [[0, 1, 2, 3, 4, 5, 6, 7, 8, 9, 10, 11]]

/-- The groups of a 12-character code are its three 4-character blocks. -/
theorem chunk4_twelve (l : List Char) (h : l.length = 12) :
    chunk4 l = [l.take 4, (l.drop 4).take 4, l.drop 8] := by
  obtain ⟨c1, l, rfl⟩ := List.exists_of_length_succ l (show l.length = 11 + 1 by omega)
  simp only [List.length_cons] at h
  obtain ⟨c2, l, rfl⟩ := List.exists_of_length_succ l (show l.length = 10 + 1 by omega)
  simp only [List.length_cons] at h
  obtain ⟨c3, l, rfl⟩ := List.exists_of_length_succ l (show l.length = 9 + 1 by omega)
  simp only [List.length_cons] at h
  obtain ⟨c4, l, rfl⟩ := List.exists_of_length_succ l (show l.length = 8 + 1 by omega)
  simp only [List.length_cons] at h
  obtain ⟨c5, l, rfl⟩ := List.exists_of_length_succ l (show l.length = 7 + 1 by omega)
  simp only [List.length_cons] at h
  obtain ⟨c6, l, rfl⟩ := List.exists_of_length_succ l (show l.length = 6 + 1 by omega)
  simp only [List.length_cons] at h
  obtain ⟨c7, l, rfl⟩ := List.exists_of_length_succ l (show l.length = 5 + 1 by omega)
  simp only [List.length_cons] at h
  obtain ⟨c8, l, rfl⟩ := List.exists_of_length_succ l (show l.length = 4 + 1 by omega)
  simp only [List.length_cons] at h
  obtain ⟨c9, l, rfl⟩ := List.exists_of_length_succ l (show l.length = 3 + 1 by omega)
  simp only [List.length_cons] at h
  obtain ⟨c10, l, rfl⟩ := List.exists_of_length_succ l (show l.length = 2 + 1 by omega)
  simp only [List.length_cons] at h
  obtain ⟨c11, l, rfl⟩ := List.exists_of_length_succ l (show l.length = 1 + 1 by omega)
  simp only [List.length_cons] at h
  obtain ⟨c12, l, rfl⟩ := List.exists_of_length_succ l (show l.length = 0 + 1 by omega)
  simp only [List.length_cons] at h
  rw [List.length_eq_zero.mp (by omega : l.length = 0)]
  rfl

/-- C8: a code generated from `CodeLength` random bytes has exactly 12
characters, all drawn from the 31-character alphabet (which contains none of
the confusable characters 0, o, O, 1, l, I), and the displayed plaintext is
the three 4-character blocks separated by hyphens. -/
theorem claim_C8_code_shape (randomBytes : List Nat)
    (h : randomBytes.length = CodeLength) :
    (generateCode randomBytes).length = 12 ∧
    (∀ ch ∈ generateCode randomBytes, ch ∈ alphabet) ∧
    alphabet.length = 31 ∧
    ('0' ∉ alphabet ∧ 'o' ∉ alphabet ∧ 'O' ∉ alphabet ∧
      '1' ∉ alphabet ∧ 'l' ∉ alphabet ∧ 'I' ∉ alphabet) ∧
    formatCode (generateCode randomBytes) =
      (generateCode randomBytes).take 4 ++ '-' ::
        (((generateCode randomBytes).drop 4).take 4 ++ '-' ::
          (generateCode randomBytes).drop 8) := by
  have hlen : (generateCode randomBytes).length = 12 := by
    simp [generateCode, h, CodeLength]
  refine ⟨hlen, generateCode_mem_alphabet randomBytes, by decide, by decide, ?_⟩
  unfold formatCode
  rw [chunk4_twelve _ hlen]
  simp [List.intercalate, List.intersperse]

/-- Witness for C8 on a concrete batch of 12 random bytes. -/
theorem claim_C8_witness :
    (generateCode [5, 37, 250, 0, 31, 62, 93, 124, 155, 186, 217, 248]).length = 12 ∧
    (∀ ch ∈ generateCode [5, 37, 250, 0, 31, 62, 93, 124, 155, 186, 217, 248],
      ch ∈ alphabet) ∧
    alphabet.length = 31 ∧
    ('0' ∉ alphabet ∧ 'o' ∉ alphabet ∧ 'O' ∉ alphabet ∧
      '1' ∉ alphabet ∧ 'l' ∉ alphabet ∧ 'I' ∉ alphabet) ∧
    formatCode (generateCode [5, 37, 250, 0, 31, 62, 93, 124, 155, 186, 217, 248]) =
      (generateCode [5, 37, 250, 0, 31, 62, 93, 124, 155, 186, 217, 248]).take 4 ++
        '-' :: (((generateCode
          [5, 37, 250, 0, 31, 62, 93, 124, 155, 186, 217, 248]).drop 4).take 4 ++
          '-' :: (generateCode
            [5, 37, 250, 0, 31, 62, 93, 124, 155, 186, 217, 248]).drop 8) :=
  claim_C8_code_shape [5, 37, 250, 0, 31, 62, 93, 124, 155, 186, 217, 248]
    (by decide)

/-! ## Claim C6: recovery codes are single-use
(internal/repository/recovery_code.go) -/

/-- One row of the `recovery_codes` table restricted to one user
(models.RecoveryCode: id, code hash, used flag). -/
structure RecoveryCode where
  id : Int
  codeHash : String
  used : Bool
deriving Repr, DecidableEq

/-- Embedding of `Repository.GetUnusedRecoveryCodes` (recovery_code.go lines
27-34): the rows with `used = 0`. -/
def GetUnusedRecoveryCodes (codes : List RecoveryCode) : List RecoveryCode :=
  codes.filter (fun c => !c.used)

/-- Embedding of `Repository.MarkRecoveryCodeUsed` (recovery_code.go lines
44-49): set `used = 1` on every row whose id matches. -/
def MarkRecoveryCodeUsed (codes : List RecoveryCode) (codeID : Int) :
    List RecoveryCode :=
  codes.map (fun c => if c.id = codeID then { c with used := true } else c)

/-- Embedding of `Repository.ValidateAndUseRecoveryCode` (recovery_code.go
lines 65-81): scan the unused rows, and on the first hash match mark that row
used and report valid; report invalid when no row matches. The bcrypt
comparison is passed in as `compare`. -/
def ValidateAndUseRecoveryCode (compare : String → String → Bool)
    (codes : List RecoveryCode) (code : String) : Bool × List RecoveryCode :=
  match (GetUnusedRecoveryCodes codes).find?
      (fun c => compare c.codeHash code) with
  | some c => (true, MarkRecoveryCodeUsed codes c.id)
  | none => (false, codes)

/-- A row is a candidate when it is unused and its hash matches the code. -/
def matchesUnused (compare : String → String → Bool) (code : String)
    (c : RecoveryCode) : Bool :=
  !c.used && compare c.codeHash code

/-- Searching a filtered list is searching with the conjoined predicate. -/
theorem find?_filter {α : Type} (p q : α → Bool) (l : List α) :
    (l.filter p).find? q = l.find? (fun a => p a && q a) := by
  induction l with
  | nil => rfl
  | cons a t ih =>
    by_cases hp : p a <;> by_cases hq : q a <;>
      simp [List.filter, List.find?, hp, hq, ih]

/-- The first match of a predicate is the head of the filtered list. -/
theorem find?_eq_head?_filter {α : Type} (p : α → Bool) (l : List α) :
    l.find? p = (l.filter p).head? := by
  induction l with
  | nil => rfl
  | cons a t ih =>
    by_cases h : p a = true
    · rw [List.find?_cons_of_pos _ h, List.filter_cons_of_pos h]
      rfl
    · rw [List.find?_cons_of_neg _ h, List.filter_cons_of_neg h, ih]

/-- Marking a row used raises the used count by the number of unused rows
carrying the marked id. -/
theorem countP_MarkRecoveryCodeUsed (l : List RecoveryCode) (i : Int) :
    (MarkRecoveryCodeUsed l i).countP (fun c => c.used) =
      l.countP (fun c => c.used) +
        l.countP (fun c => decide (c.id = i) && !c.used) := by
  induction l with
  | nil => rfl
  | cons a t ih =>
    unfold MarkRecoveryCodeUsed at *
    simp only [List.map_cons, List.countP_cons]
    by_cases hid : a.id = i
    · by_cases hu : a.used <;> simp [hid, hu, ih] <;> try omega
    · by_cases hu : a.used <;> simp [hid, hu, ih] <;> try omega

/-- Under distinct row ids, exactly one unused row carries the id of a given
unused member. -/
theorem countP_id_of_nodup (l : List RecoveryCode) (c0 : RecoveryCode)
    (hnd : (l.map (fun c => c.id)).Nodup) (hmem : c0 ∈ l)
    (hun : c0.used = false) :
    l.countP (fun c => decide (c.id = c0.id) && !c.used) = 1 := by
  induction l with
  | nil => simp at hmem
  | cons a t ih =>
    simp only [List.map_cons, List.nodup_cons] at hnd
    rcases List.mem_cons.mp hmem with rfl | hmem2
    · simp only [List.countP_cons]
      have ht : t.countP (fun c => decide (c.id = c0.id) && !c.used) = 0 := by
        apply List.countP_eq_zero.mpr
        intro e he hcontra
        simp only [Bool.and_eq_true, decide_eq_true_eq] at hcontra
        exact hnd.1 (hcontra.1 ▸ List.mem_map.mpr ⟨e, he, rfl⟩)
      simp [ht, hun]
    · simp only [List.countP_cons]
      have ha : ¬((decide (a.id = c0.id) && !a.used) = true) := by
        simp only [Bool.and_eq_true, decide_eq_true_eq]
        rintro ⟨hid, _⟩
        exact hnd.1 (hid ▸ List.mem_map.mpr ⟨c0, hmem2, rfl⟩)
      simp [ha, ih hnd.2 hmem2]

/-- C6: when exactly one of a user's unused stored hashes matches a code and
the row ids are distinct, the first `ValidateAndUseRecoveryCode` call on that
code returns valid and marks exactly one code used, and a second call with
the same code (no regeneration in between) returns invalid because used codes
are excluded from the candidate set. -/
theorem claim_C6_recovery_code_single_use (compare : String → String → Bool)
    (codes : List RecoveryCode) (code : String)
    (h1 : (codes.filter (matchesUnused compare code)).length = 1)
    (h2 : (codes.map (fun c => c.id)).Nodup) :
    (ValidateAndUseRecoveryCode compare codes code).1 = true ∧
    (ValidateAndUseRecoveryCode compare
      (ValidateAndUseRecoveryCode compare codes code).2 code).1 = false ∧
    ((ValidateAndUseRecoveryCode compare codes code).2.countP
        (fun c => c.used)) = codes.countP (fun c => c.used) + 1 := by
  obtain ⟨c0, hc0⟩ := List.length_eq_one.mp h1
  have hconv : (GetUnusedRecoveryCodes codes).find?
      (fun c => compare c.codeHash code) =
      codes.find? (matchesUnused compare code) := by
    unfold GetUnusedRecoveryCodes
    rw [find?_filter]
    rfl
  have hfind : (GetUnusedRecoveryCodes codes).find?
      (fun c => compare c.codeHash code) = some c0 := by
    rw [hconv, find?_eq_head?_filter, hc0]
    rfl
  have hc0f : c0 ∈ codes.filter (matchesUnused compare code) := by
    rw [hc0]; simp
  have hc0mem : c0 ∈ codes := (List.mem_filter.mp hc0f).1
  have hc0M : matchesUnused compare code c0 = true :=
    (List.mem_filter.mp hc0f).2
  have hc0un : c0.used = false := by
    unfold matchesUnused at hc0M
    simp only [Bool.and_eq_true, Bool.not_eq_eq_eq_not, Bool.not_true] at hc0M
    exact hc0M.1
  have hstep1 : ValidateAndUseRecoveryCode compare codes code =
      (true, MarkRecoveryCodeUsed codes c0.id) := by
    unfold ValidateAndUseRecoveryCode
    rw [hfind]
  refine ⟨by rw [hstep1], ?_, ?_⟩
  · rw [hstep1]
    have hnone : (GetUnusedRecoveryCodes
        (MarkRecoveryCodeUsed codes c0.id)).find?
        (fun c => compare c.codeHash code) = none := by
      have hconv2 : (GetUnusedRecoveryCodes
          (MarkRecoveryCodeUsed codes c0.id)).find?
          (fun c => compare c.codeHash code) =
          (MarkRecoveryCodeUsed codes c0.id).find?
            (matchesUnused compare code) := by
        unfold GetUnusedRecoveryCodes
        rw [find?_filter]
        rfl
      rw [hconv2]
      apply List.find?_eq_none.mpr
      intro e he hM
      unfold MarkRecoveryCodeUsed at he
      obtain ⟨x, hx, rfl⟩ := List.mem_map.mp he
      by_cases hid : x.id = c0.id
      · rw [if_pos hid] at hM
        unfold matchesUnused at hM
        simp at hM
      · rw [if_neg hid] at hM
        have hxf : x ∈ codes.filter (matchesUnused compare code) :=
          List.mem_filter.mpr ⟨hx, hM⟩
        rw [hc0] at hxf
        exact hid (by rw [List.mem_singleton.mp hxf])
    unfold ValidateAndUseRecoveryCode
    rw [hnone]
  · rw [hstep1]
    simp only
    rw [countP_MarkRecoveryCodeUsed, countP_id_of_nodup codes c0 h2 hc0mem hc0un]

/-- Witness for C6 on a concrete two-row table. -/
theorem claim_C6_witness :
    (ValidateAndUseRecoveryCode (fun a b => a == b)
      [⟨1, "aaaa", false⟩, ⟨2, "bbbb", false⟩] "bbbb").1 = true ∧
    (ValidateAndUseRecoveryCode (fun a b => a == b)
      (ValidateAndUseRecoveryCode (fun a b => a == b)
        [⟨1, "aaaa", false⟩, ⟨2, "bbbb", false⟩] "bbbb").2 "bbbb").1 = false ∧
    ((ValidateAndUseRecoveryCode (fun a b => a == b)
      [⟨1, "aaaa", false⟩, ⟨2, "bbbb", false⟩] "bbbb").2.countP
        (fun c => c.used)) =
      ([⟨1, "aaaa", false⟩, ⟨2, "bbbb", false⟩] :
        List RecoveryCode).countP (fun c => c.used) + 1 :=
  claim_C6_recovery_code_single_use (fun a b => a == b)
    [⟨1, "aaaa", false⟩, ⟨2, "bbbb", false⟩] "bbbb" (by decide) (by decide)

/-! ## Handler models (internal/handlers/auth.go)

The HTTP handlers become pure state transformers. The repository tables are
lists inside a `DB` value; the fallible external collaborators (the WebAuthn
protocol library, the session manager, database errors, `crypto/rand`) are
passed in as explicit oracle arguments describing their outcome. -/

/-- models.User restricted to the fields the handlers read. -/
structure User where
  id : Int
  username : String
  displayName : String
  email : Option String
  emailVerified : Bool
deriving Repr, DecidableEq

/-- models.Credential restricted to the fields the claims concern. -/
structure Credential where
  userID : Int
  credentialID : List Nat
  signCount : Nat
deriving Repr, DecidableEq

/-- The repository state: the users, credentials, recovery-code and
email-verification-token tables, plus the autoincrement counter. -/
structure DB where
  users : List User
  nextUserID : Int
  credentials : List Credential
  recoveryHashes : List (Int × String)
  emailTokens : List (Int × String)
deriving Repr, DecidableEq

/-- An HTTP response: status code and the error/status payload. -/
structure HResp where
  status : Nat
  body : String
deriving Repr, DecidableEq

/-- `Repository.UserExists`: a row with this username exists. -/
def UserExists (db : DB) (username : String) : Bool :=
  db.users.any (fun u => u.username = username)

/-- `Repository.EmailExists`: a row with this email exists. -/
def EmailExists (db : DB) (email : String) : Bool :=
  db.users.any (fun u => u.email = some email)

/-- `Repository.CreateUser`: insert a user row, assigning the next id. -/
def CreateUser (db : DB) (username displayName : String) : User × DB :=
  let user : User := ⟨db.nextUserID, username, displayName, none, false⟩
  (user, { db with users := db.users ++ [user], nextUserID := db.nextUserID + 1 })

/-- `Repository.CreateUserWithEmail`: insert a user row with the email as
username (the source comment: email as username for WebAuthn compatibility). -/
def CreateUserWithEmail (db : DB) (email displayName : String) : User × DB :=
  let user : User := ⟨db.nextUserID, email, displayName, some email, false⟩
  (user, { db with users := db.users ++ [user], nextUserID := db.nextUserID + 1 })

/-- `Repository.GetUserByID`: the row with this id, if any. -/
def GetUserByID (db : DB) (id : Int) : Option User :=
  db.users.find? (fun u => u.id = id)

/-- `Repository.CreateCredential`: insert a credential row. -/
def CreateCredential (db : DB) (cred : Credential) : DB :=
  { db with credentials := db.credentials ++ [cred] }

/-- `Repository.CreateRecoveryCodes`: insert one row per hash. -/
def CreateRecoveryCodes (db : DB) (userID : Int) (hashes : List String) : DB :=
  { db with recoveryHashes :=
      db.recoveryHashes ++ hashes.map (fun hs => (userID, hs)) }

/-- `Repository.CreateEmailVerificationToken`: insert a token row. -/
def CreateEmailVerificationToken (db : DB) (userID : Int)
    (tokenHash : String) : DB :=
  { db with emailTokens := db.emailTokens ++ [(userID, tokenHash)] }

/-- `Repository.UpdateCredentialSignCount` (repository/credential.go lines
41-46): set the sign count on every row with this credential id. -/
def UpdateCredentialSignCount (db : DB) (credentialID : List Nat)
    (signCount : Nat) : DB :=
  { db with credentials := db.credentials.map (fun c =>
      if c.credentialID = credentialID then { c with signCount := signCount }
      else c) }

/-- Embedding of `AuthHandlers.RegisterBegin` (handlers/auth.go lines 68-145)
after request binding. Oracles: `existsCheckErr` (database error on the
exists check), `createUserErr` (insert failure), `beginRegistrationErr`
(protocol library failure), `sessionData` (the state the library returned). -/
def RegisterBegin {α : Type} (useEmail : Bool)
    (reqUsername reqEmail reqDisplayName : String)
    (existsCheckErr createUserErr beginRegistrationErr : Bool)
    (sessionData : α) (db : DB) (sessions : SessionStoreMap α) (now : Int) :
    HResp × DB × SessionStoreMap α :=
  if useEmail then
    if reqEmail = "" then (⟨400, "email is required"⟩, db, sessions)
    else
      let displayName := if reqDisplayName = "" then reqEmail
        else reqDisplayName
      if existsCheckErr then (⟨500, "database error"⟩, db, sessions)
      else if EmailExists db reqEmail then
        (⟨409, "email already registered"⟩, db, sessions)
      else if createUserErr then
        (⟨500, "failed to create user"⟩, db, sessions)
      else
        let p := CreateUserWithEmail db reqEmail displayName
        if beginRegistrationErr then
          (⟨500, "failed to begin registration"⟩, p.2, sessions)
        else
          (⟨200, "ok"⟩, p.2,
            StoreRegistrationSession sessions p.1.id sessionData now)
  else
    if reqUsername = "" then (⟨400, "username is required"⟩, db, sessions)
    else
      let displayName := if reqDisplayName = "" then reqUsername
        else reqDisplayName
      if existsCheckErr then (⟨500, "database error"⟩, db, sessions)
      else if UserExists db reqUsername then
        (⟨409, "username already taken"⟩, db, sessions)
      else if createUserErr then
        (⟨500, "failed to create user"⟩, db, sessions)
      else
        let p := CreateUser db reqUsername displayName
        if beginRegistrationErr then
          (⟨500, "failed to begin registration"⟩, p.2, sessions)
        else
          (⟨200, "ok"⟩, p.2,
            StoreRegistrationSession sessions p.1.id sessionData now)

/-- Embedding of `AuthHandlers.RegisterFinish` (handlers/auth.go lines
153-264). `parsedUserID` is the result of parsing the query parameter;
`finishRegistrationResult` is the protocol library outcome (the error string
on failure, the credential id and sign count on success); `genCodesResult`
the generated recovery codes and hashes (`none` on failure);
`storeCodesFailAfter` the number of hash rows inserted before the insert loop
failed (`none` for success); the remaining booleans are the token, flash and
session-manager oracles. -/
def RegisterFinish {α : Type} (parsedUserID : Option Int)
    (finishRegistrationResult : Except String (List Nat × Nat))
    (createCredentialErr : Bool)
    (genCodesResult : Option (List String × List String))
    (storeCodesFailAfter : Option Nat)
    (useEmail requireVerification : Bool)
    (tokenGenResult : Option (String × String)) (tokenStoreErr : Bool)
    (flashOk sessionCreateOk : Bool)
    (db : DB) (sessions : SessionStoreMap α) (now : Int) :
    HResp × DB × SessionStoreMap α :=
  match parsedUserID with
  | none => (⟨400, "invalid user_id"⟩, db, sessions)
  | some userID =>
    let g := GetRegistrationSession sessions userID now
    match g.1 with
    | .notFound => (⟨400, "registration session expired"⟩, db, g.2)
    | .expired => (⟨400, "registration session expired"⟩, db, g.2)
    | .found _ =>
      match GetUserByID db userID with
      | none => (⟨404, "user not found"⟩, db, g.2)
      | some user =>
        match finishRegistrationResult with
        | .error e => (⟨400, "registration failed: " ++ e⟩, db, g.2)
        | .ok cred =>
          if createCredentialErr then
            (⟨500, "failed to store credential"⟩, db, g.2)
          else
            let db1 := CreateCredential db ⟨user.id, cred.1, cred.2⟩
            match genCodesResult with
            | none => (⟨500, "failed to generate recovery codes"⟩, db1, g.2)
            | some codes =>
              match storeCodesFailAfter with
              | some k =>
                (⟨500, "failed to store recovery codes"⟩,
                  CreateRecoveryCodes db1 user.id (codes.2.take k), g.2)
              | none =>
                let db2 := CreateRecoveryCodes db1 user.id codes.2
                if useEmail && user.email.isSome && requireVerification then
                  match tokenGenResult with
                  | none =>
                    (⟨500, "failed to generate verification token"⟩, db2, g.2)
                  | some tok =>
                    if tokenStoreErr then
                      (⟨500, "failed to store verification token"⟩, db2, g.2)
                    else
                      (⟨200, "ok /auth/verify-pending"⟩,
                        CreateEmailVerificationToken db2 user.id tok.2, g.2)
                else
                  if !sessionCreateOk then
                    (⟨500, "failed to create session"⟩, db2, g.2)
                  else if !flashOk then
                    (⟨500, "failed to store recovery codes"⟩, db2, g.2)
                  else (⟨200, "ok /auth/recovery-codes"⟩, db2, g.2)

/-- Embedding of `AuthHandlers.AddCredentialFinish` (handlers/auth.go lines
397-434): authenticated user, session retrieval, protocol verification,
credential insert. -/
def AddCredentialFinish {α : Type} (authedUser : Option User)
    (finishRegistrationResult : Except String (List Nat × Nat))
    (createCredentialErr : Bool)
    (db : DB) (sessions : SessionStoreMap α) (now : Int) :
    HResp × DB × SessionStoreMap α :=
  match authedUser with
  | none => (⟨401, "not authenticated"⟩, db, sessions)
  | some user =>
    let g := GetRegistrationSession sessions user.id now
    match g.1 with
    | .notFound => (⟨400, "registration session expired"⟩, db, g.2)
    | .expired => (⟨400, "registration session expired"⟩, db, g.2)
    | .found _ =>
      match finishRegistrationResult with
      | .error e => (⟨400, "registration failed: " ++ e⟩, db, g.2)
      | .ok cred =>
        if createCredentialErr then
          (⟨500, "failed to store credential"⟩, db, g.2)
        else
          (⟨200, "ok"⟩, CreateCredential db ⟨user.id, cred.1, cred.2⟩, g.2)

/-- Embedding of `AuthHandlers.LoginFinish` (handlers/auth.go lines 291-351).
`finishResult` is the outcome of `FinishDiscoverableLogin` together with the
user the callback resolved (credential id, reported sign count, found user);
`updateSignCountOk` tells whether the best-effort sign-count update
succeeded (its error is discarded by the handler either way). -/
def LoginFinish {α : Type} (sessionID : String)
    (finishResult : Except Unit (List Nat × Nat × User))
    (updateSignCountOk : Bool)
    (useEmail requireVerification sessionCreateOk : Bool)
    (db : DB) (sessions : SessionStoreMap α) (now : Int) :
    HResp × DB × SessionStoreMap α :=
  if sessionID = "" then (⟨400, "session_id is required"⟩, db, sessions)
  else
    let g := GetDiscoverableSession sessions sessionID now
    match g.1 with
    | .notFound => (⟨400, "login session expired"⟩, db, g.2)
    | .expired => (⟨400, "login session expired"⟩, db, g.2)
    | .found _ =>
      match finishResult with
      | .error _ => (⟨401, "login failed"⟩, db, g.2)
      | .ok r =>
        let db1 := if updateSignCountOk then
          UpdateCredentialSignCount db r.1 r.2.1 else db
        if useEmail && requireVerification && !r.2.2.emailVerified then
          (⟨403, "email_not_verified"⟩, db1, g.2)
        else if !sessionCreateOk then
          (⟨500, "failed to create session"⟩, db1, g.2)
        else (⟨200, "ok"⟩, db1, g.2)

/-- A concrete database: one user with id 1 and no credentials. -/
def dbExample : DB := ⟨[⟨1, "alice", "Alice", none, false⟩], 2, [], [], []⟩

/-- A concrete session store holding one registration session for user 1. -/
def sessionsExample : SessionStoreMap Nat :=
  StoreRegistrationSession emptySessions 1 0 0

/-! ## Claim C9: the sign-count update is best-effort -/

/-- C9: when the assertion verification of a discoverable-login finish
succeeds, the response sent to the client is the same whether the sign-count
persistence succeeds or fails, and on the success path it is status 200 in
both cases: an update failure never turns a successful login into a
failure. -/
theorem claim_C9_sign_count_best_effort {α : Type} (sessionID : String)
    (r : List Nat × Nat × User)
    (useEmail requireVerification sessionCreateOk : Bool)
    (db : DB) (sessions : SessionStoreMap α) (now : Int) (d : α)
    (hsid : sessionID ≠ "")
    (hget : (GetDiscoverableSession sessions sessionID now).1 =
      GetResult.found d)
    (hver : (useEmail && requireVerification && !r.2.2.emailVerified) = false)
    (hsess : sessionCreateOk = true) :
    (LoginFinish sessionID (Except.ok r) true useEmail requireVerification
        sessionCreateOk db sessions now).1 =
      (LoginFinish sessionID (Except.ok r) false useEmail requireVerification
        sessionCreateOk db sessions now).1 ∧
    (LoginFinish sessionID (Except.ok r) true useEmail requireVerification
        sessionCreateOk db sessions now).1 = ⟨200, "ok"⟩ ∧
    (LoginFinish sessionID (Except.ok r) false useEmail requireVerification
        sessionCreateOk db sessions now).1 = ⟨200, "ok"⟩ := by
  refine ⟨?_, ?_, ?_⟩ <;>
    simp [LoginFinish, hsid, hget, hver, hsess]

/-- Witness for C9 at concrete inputs. -/
theorem claim_C9_witness :
    (LoginFinish "s" (Except.ok ([7], 5, ⟨1, "alice", "Alice", none, false⟩))
        true false false true dbExample
        (StoreDiscoverableSession (emptySessions (α := Nat)) "s" 0 0) 0).1 =
      (LoginFinish "s" (Except.ok ([7], 5, ⟨1, "alice", "Alice", none, false⟩))
        false false false true dbExample
        (StoreDiscoverableSession (emptySessions (α := Nat)) "s" 0 0) 0).1 ∧
    (LoginFinish "s" (Except.ok ([7], 5, ⟨1, "alice", "Alice", none, false⟩))
        true false false true dbExample
        (StoreDiscoverableSession (emptySessions (α := Nat)) "s" 0 0) 0).1 =
      ⟨200, "ok"⟩ ∧
    (LoginFinish "s" (Except.ok ([7], 5, ⟨1, "alice", "Alice", none, false⟩))
        false false false true dbExample
        (StoreDiscoverableSession (emptySessions (α := Nat)) "s" 0 0) 0).1 =
      ⟨200, "ok"⟩ :=
  claim_C9_sign_count_best_effort "s"
    ([7], 5, ⟨1, "alice", "Alice", none, false⟩) false false true dbExample
    (StoreDiscoverableSession (emptySessions (α := Nat)) "s" 0 0) 0 0
    (by decide) (by decide) (by decide) (by decide)

/-! ## Claim C4: verification-failure responses embed the raw error text -/

/-- C4 (amended): on every protocol verification failure during registration
finish and add-credential finish, the response is status 400 with body
"registration failed: " followed by the raw protocol-library error text; the
raw error text is therefore part of the client response rather than only
being logged. -/
theorem claim_C4_raw_error_in_response {α : Type} (userID : Int) (e : String)
    (user : User) (d : α) (db : DB) (sessions : SessionStoreMap α) (now : Int)
    (cce : Bool) (gcr : Option (List String × List String))
    (scfa : Option Nat) (ue rv : Bool) (tgr : Option (String × String))
    (tse fo sco : Bool)
    (hget : (GetRegistrationSession sessions userID now).1 =
      GetResult.found d)
    (huser : GetUserByID db userID = some user) :
    (RegisterFinish (some userID) (Except.error e) cce gcr scfa ue rv tgr tse
        fo sco db sessions now).1 =
      ⟨400, "registration failed: " ++ e⟩ ∧
    (∀ (user2 : User) (d2 : α),
      (GetRegistrationSession sessions user2.id now).1 =
        GetResult.found d2 →
      (AddCredentialFinish (some user2) (Except.error e) cce db sessions
          now).1 = ⟨400, "registration failed: " ++ e⟩) := by
  constructor
  · simp [RegisterFinish, hget, huser]
  · intro user2 d2 hget2
    simp [AddCredentialFinish, hget2]

/-- Witness for C4 at concrete inputs. -/
theorem claim_C4_witness :
    (RegisterFinish (some 1) (Except.error "bad attestation") false none none
        false false none false true true dbExample sessionsExample 0).1 =
      ⟨400, "registration failed: " ++ "bad attestation"⟩ ∧
    (∀ (user2 : User) (d2 : Nat),
      (GetRegistrationSession sessionsExample user2.id 0).1 =
        GetResult.found d2 →
      (AddCredentialFinish (some user2) (Except.error "bad attestation") false
          dbExample sessionsExample 0).1 =
        ⟨400, "registration failed: " ++ "bad attestation"⟩) :=
  claim_C4_raw_error_in_response 1 "bad attestation"
    ⟨1, "alice", "Alice", none, false⟩ 0 dbExample sessionsExample 0 false
    none none false false none false true true (by decide) (by decide)

/-- Counterexample to C4 as stated: at a concrete verification failure the
response body is not a generic message; it contains the raw library error
text verbatim as a suffix. -/
theorem claim_C4_counterexample :
    (RegisterFinish (some 1) (Except.error "Error validating challenge") false
        none none false false none false true true dbExample sessionsExample
        0).1 = ⟨400, "registration failed: Error validating challenge"⟩ ∧
    "Error validating challenge".data <:+
      ((RegisterFinish (some 1) (Except.error "Error validating challenge")
        false none none false false none false true true dbExample
        sessionsExample 0).1).body.data := by
  constructor
  · decide
  · decide

/-! ## Claim C10: the user persists through a failed registration finish -/

/-- C10 (amended): a successful RegisterBegin leaves the newly created user in
the repository and writes no credential; RegisterFinish never modifies the
users table on any path, and on every failure up to and including credential
persistence (missing or expired challenge state, verification failure,
credential store failure) the database is completely unchanged, so the user
persists with zero credentials; a failure after the credential insert,
however, leaves the credential persisted. -/
theorem claim_C10_user_persists {α : Type} (useEmail : Bool)
    (reqUsername reqEmail reqDisplayName : String)
    (existsCheckErr createUserErr beginRegistrationErr : Bool)
    (sessionData : α) (db : DB) (sessions : SessionStoreMap α) (now : Int) :
    ((RegisterBegin useEmail reqUsername reqEmail reqDisplayName
        existsCheckErr createUserErr beginRegistrationErr sessionData db
        sessions now).1.status = 200 →
      ∃ u ∈ (RegisterBegin useEmail reqUsername reqEmail reqDisplayName
        existsCheckErr createUserErr beginRegistrationErr sessionData db
        sessions now).2.1.users, u.id = db.nextUserID) ∧
    (RegisterBegin useEmail reqUsername reqEmail reqDisplayName existsCheckErr
        createUserErr beginRegistrationErr sessionData db sessions
        now).2.1.credentials = db.credentials ∧
    (∀ (pid : Option Int) (fr : Except String (List Nat × Nat)) (cce : Bool)
      (gcr : Option (List String × List String)) (scfa : Option Nat)
      (ue rv : Bool) (tgr : Option (String × String)) (tse fo sco : Bool)
      (db2 : DB) (sess2 : SessionStoreMap α) (now2 : Int),
      (RegisterFinish pid fr cce gcr scfa ue rv tgr tse fo sco db2 sess2
          now2).2.1.users = db2.users) ∧
    (∀ (e : String) (cce : Bool) (gcr : Option (List String × List String))
      (scfa : Option Nat) (ue rv : Bool) (tgr : Option (String × String))
      (tse fo sco : Bool) (uid : Int) (db2 : DB)
      (sess2 : SessionStoreMap α) (now2 : Int),
      (RegisterFinish (some uid) (Except.error e) cce gcr scfa ue rv tgr tse
          fo sco db2 sess2 now2).2.1 = db2) ∧
    (∀ (pid : Option Int) (fr : Except String (List Nat × Nat))
      (gcr : Option (List String × List String)) (scfa : Option Nat)
      (ue rv : Bool) (tgr : Option (String × String)) (tse fo sco : Bool)
      (db2 : DB) (sess2 : SessionStoreMap α) (now2 : Int),
      (RegisterFinish pid fr true gcr scfa ue rv tgr tse fo sco db2 sess2
          now2).2.1 = db2) ∧
    (∀ (fr : Except String (List Nat × Nat)) (cce : Bool)
      (gcr : Option (List String × List String)) (scfa : Option Nat)
      (ue rv : Bool) (tgr : Option (String × String)) (tse fo sco : Bool)
      (uid : Int) (db2 : DB) (sess2 : SessionStoreMap α) (now2 : Int),
      (GetRegistrationSession sess2 uid now2).1 = GetResult.notFound →
      (RegisterFinish (some uid) fr cce gcr scfa ue rv tgr tse fo sco db2
          sess2 now2).2.1 = db2) ∧
    (∀ (fr : Except String (List Nat × Nat)) (cce : Bool)
      (gcr : Option (List String × List String)) (scfa : Option Nat)
      (ue rv : Bool) (tgr : Option (String × String)) (tse fo sco : Bool)
      (uid : Int) (db2 : DB) (sess2 : SessionStoreMap α) (now2 : Int),
      (GetRegistrationSession sess2 uid now2).1 = GetResult.expired →
      (RegisterFinish (some uid) fr cce gcr scfa ue rv tgr tse fo sco db2
          sess2 now2).2.1 = db2) := by
  refine ⟨?_, ?_, ?_, ?_, ?_, ?_, ?_⟩
  · intro h200
    unfold RegisterBegin at h200 ⊢
    split_ifs at h200 ⊢ <;> simp_all [CreateUser, CreateUserWithEmail] <;>
      exact ⟨_, Or.inr rfl, rfl⟩
  · unfold RegisterBegin
    split_ifs <;> simp [CreateUser, CreateUserWithEmail]
  · intro pid fr cce gcr scfa ue rv tgr tse fo sco db2 sess2 now2
    rcases pid with _ | uid
    · simp [RegisterFinish]
    · cases hg : (GetRegistrationSession sess2 uid now2).1 with
      | notFound => simp [RegisterFinish, hg]
      | expired => simp [RegisterFinish, hg]
      | found d =>
        cases hu : GetUserByID db2 uid with
        | none => simp [RegisterFinish, hg, hu]
        | some user =>
          cases fr with
          | error e => simp [RegisterFinish, hg, hu]
          | ok cred =>
            by_cases hcce : cce = true
            · simp [RegisterFinish, hg, hu, hcce]
            · cases gcr with
              | none => simp [RegisterFinish, hg, hu, hcce, CreateCredential]
              | some codes =>
                cases scfa with
                | some k =>
                  simp [RegisterFinish, hg, hu, hcce, CreateCredential,
                    CreateRecoveryCodes]
                | none =>
                  by_cases hb : (ue && user.email.isSome && rv) = true
                  · cases tgr with
                    | none =>
                      simp [RegisterFinish, hg, hu, hcce, hb,
                        CreateCredential, CreateRecoveryCodes]
                    | some tok =>
                      by_cases htse : tse = true <;>
                        simp [RegisterFinish, hg, hu, hcce, hb, htse,
                          CreateCredential, CreateRecoveryCodes,
                          CreateEmailVerificationToken]
                  · by_cases hsco : sco = true <;> by_cases hfo : fo = true <;>
                      simp [RegisterFinish, hg, hu, hcce, hb, hsco, hfo,
                        CreateCredential, CreateRecoveryCodes]
  · intro e cce gcr scfa ue rv tgr tse fo sco uid db2 sess2 now2
    cases hg : (GetRegistrationSession sess2 uid now2).1 with
    | notFound => simp [RegisterFinish, hg]
    | expired => simp [RegisterFinish, hg]
    | found d =>
      cases hu : GetUserByID db2 uid with
      | none => simp [RegisterFinish, hg, hu]
      | some user => simp [RegisterFinish, hg, hu]
  · intro pid fr gcr scfa ue rv tgr tse fo sco db2 sess2 now2
    rcases pid with _ | uid
    · simp [RegisterFinish]
    · cases hg : (GetRegistrationSession sess2 uid now2).1 with
      | notFound => simp [RegisterFinish, hg]
      | expired => simp [RegisterFinish, hg]
      | found d =>
        cases hu : GetUserByID db2 uid with
        | none => simp [RegisterFinish, hg, hu]
        | some user =>
          cases fr with
          | error e => simp [RegisterFinish, hg, hu]
          | ok cred => simp [RegisterFinish, hg, hu]
  · intro fr cce gcr scfa ue rv tgr tse fo sco uid db2 sess2 now2 hget
    simp [RegisterFinish, hget]
  · intro fr cce gcr scfa ue rv tgr tse fo sco uid db2 sess2 now2 hget
    simp [RegisterFinish, hget]

/-- Witness for C10: a concrete successful begin followed by a concrete
failed finish, plus a concrete expired-session finish that leaves the
database unchanged. -/
theorem claim_C10_witness :
    (RegisterBegin false "bob" "" "" false false false (0 : Nat) dbExample
        emptySessions 0).1.status = 200 ∧
    (∃ u ∈ (RegisterBegin false "bob" "" "" false false false (0 : Nat)
        dbExample emptySessions 0).2.1.users, u.id = dbExample.nextUserID) ∧
    (RegisterFinish (some 1) (Except.error "x") false none none false false
        none false true true dbExample (emptySessions (α := Nat))
        0).2.1 = dbExample ∧
    (RegisterFinish (some 1) (Except.ok ([7], 5)) false
        (some (["c1"], ["h1"])) none false false none false true true
        dbExample sessionsExample (sessionTTL + 1)).2.1 = dbExample :=
  ⟨by decide,
    (claim_C10_user_persists false "bob" "" "" false false false (0 : Nat)
      dbExample emptySessions 0).1 (by decide),
    (claim_C10_user_persists false "bob" "" "" false false false (0 : Nat)
      dbExample emptySessions 0).2.2.2.1 "x" false none none false false none
      false true true 1 dbExample emptySessions 0,
    (claim_C10_user_persists false "bob" "" "" false false false (0 : Nat)
      dbExample sessionsExample 0).2.2.2.2.2.2 (Except.ok ([7], 5)) false
      (some (["c1"], ["h1"])) none false false none false true true 1
      dbExample sessionsExample (sessionTTL + 1) (by decide)⟩

/-- Counterexample to C10 as stated: a finish that fails after the credential
insert (the recovery-code insert loop fails) reports failure to the client,
yet the user keeps the freshly persisted credential, so a failed ceremony
does not always leave a user with zero credentials. -/
theorem claim_C10_counterexample :
    (RegisterFinish (some 1) (Except.ok ([7], 5)) false (some (["c1"], ["h1"]))
        (some 0) false false none false true true dbExample sessionsExample
        0).1 = ⟨500, "failed to store recovery codes"⟩ ∧
    ((RegisterFinish (some 1) (Except.ok ([7], 5)) false
        (some (["c1"], ["h1"])) (some 0) false false none false true true
        dbExample sessionsExample 0).2.1.credentials.filter
      (fun c => c.userID = 1)) = [⟨1, [7], 5⟩] := by
  constructor
  · decide
  · decide
